import Mathlib

/-!
# go-ambassador: pagination engine and session handlers

A shallow embedding of `models/paginate.go`, `models/entity.go`,
`controllers/authController.go`, `controllers/userController.go` and
`middlewares/authMiddleware.go`.

Go's `int`, `int64` and `uint` are 64-bit machine integers: they are embedded
as `Int` / `Nat` with explicit wrap-around.  `float64` values are embedded as
the rationals they denote, with an explicit round-to-nearest-even step after
every floating-point operation.
-/

namespace Ambassador

/-! ## Machine integers -/

/-- Two's-complement wrap of a mathematical integer into Go's 64-bit `int`. -/
def wrapInt (x : Int) : Int := (x + 2 ^ 63) % 2 ^ 64 - 2 ^ 63

/-- Largest value of Go's 64-bit `int`. -/
def maxInt : Int := 2 ^ 63 - 1

/-- Smallest value of Go's 64-bit `int`. -/
def minInt : Int := -(2 ^ 63)

/-- Go's conversion `uint(x)` of an `int`. -/
def toUint (x : Int) : Nat := (x % 2 ^ 64).toNat

/-- Go's conversion `int(x)` of a `uint`. -/
def toInt (x : Nat) : Int := wrapInt (x : Int)

/-! ## float64 -/

/-- Nearest integer to a rational, ties to the even neighbour. -/
def roundHalfEven (z : ℚ) : ℤ :=
  let f := ⌊z⌋
  if z - f < 1 / 2 then f
  else if 1 / 2 < z - f then f + 1
  else if f % 2 = 0 then f else f + 1

/-- Binary exponent of the unit in the last place of the float64 nearest to
`x`: 52 below the exponent of `x`, and never below that of the subnormals. -/
def ulpExp (x : ℚ) : ℤ := max (Int.log 2 |x|) (-1022) - 52

/-- IEEE-754 binary64 rounding (to nearest, ties to even) of a rational whose
magnitude is below the overflow threshold, as every quotient of two converted
64-bit integers is. -/
def roundFloat64 (x : ℚ) : ℚ :=
  if x = 0 then 0 else (roundHalfEven (x / 2 ^ ulpExp x) : ℚ) * 2 ^ ulpExp x

/-- Go's conversion `float64(n)` of an integer. -/
def float64 (n : Int) : ℚ := roundFloat64 (n : ℚ)

/-- Go's `/` on two float64 values with a non-zero divisor. -/
def fdiv (a b : ℚ) : ℚ := roundFloat64 (a / b)

/-- Go's `math.Ceil` on a finite float64; the result is a float64 again. -/
def Ceil (x : ℚ) : ℚ := ((⌈x⌉ : ℤ) : ℚ)

/-! ## models/entity.go and models/paginate.go -/

/-- The `Entity` interface: the two methods a paginatable model provides.
Both receive the database handle; `S` is the state they run against and may
change, `R` the type of the value `Take` hands back. -/
structure Entity (S R : Type) where
  /-- Go `Count(db) int64`. -/
  Count : S → Int × S
  /-- Go `Take(db, limit, offset) interface{}`. -/
  Take : Int → Int → S → R × S

/-- The inner `fiber.Map` under the key `"meta"`. -/
structure Meta where
  total : Int
  page : Int
  last_page : ℚ
  deriving DecidableEq

/-- The `fiber.Map` returned by `Paginate`: the keys `"data"` and `"meta"`. -/
structure PageResult (R : Type) where
  data : R
  meta : Meta
  deriving DecidableEq

/-- Go `Paginate(db, entity, page)`. -/
def Paginate {S R : Type} (entity : Entity S R) (page : Int) (db : S) :
    PageResult R × S :=
  let limit : Int := 5
  let offset := wrapInt ((page - 1) * limit)
  let r1 := entity.Take limit offset db
  let r2 := entity.Count r1.2
  ({ data := r1.1
     meta :=
      { total := r2.1
        page := page
        last_page := Ceil (fdiv (float64 r2.1) (float64 limit)) } }, r2.2)

/-- One call made on an entity. -/
inductive EntityCall where
  | count
  | take (limit offset : Int)
  deriving DecidableEq, Repr

/-- An entity that behaves as `e` and also appends every call made on it to a
log kept next to the state. -/
def logged {S R : Type} (e : Entity S R) : Entity (S × List EntityCall) R where
  Count := fun s => ((e.Count s.1).1, ((e.Count s.1).2, s.2 ++ [EntityCall.count]))
  Take := fun limit offset s =>
    ((e.Take limit offset s.1).1,
      ((e.Take limit offset s.1).2, s.2 ++ [EntityCall.take limit offset]))

/-- The records of `xs` at the positions `offset .. offset+limit-1` that exist. -/
def slice {α : Type} (xs : List α) (limit offset : Int) : List α :=
  (xs.drop offset.toNat).take ((offset + limit).toNat - offset.toNat)

/-- Modelled from the spec: the concrete models (`User`, `Product`, `Order`)
and their `Count` and `Take` methods are not part of the sources.  An entity
is a finite sequence of records; `Count` returns its length and
`Take(limit, offset)` the records at positions `offset .. offset+limit-1`
that exist. -/
def listEntity {α : Type} (xs : List α) : Entity Unit (List α) where
  Count := fun s => ((xs.length : Int), s)
  Take := fun limit offset s => (slice xs limit offset, s)

/-! ## strconv -/

/-- The scan of `strconv.ParseUint(s, 10, 64)` over the bytes left, `n` being
the value read so far: `none` at a byte that is not a digit; the largest
`uint64` as soon as the value leaves the range, whatever follows. -/
def parseUintScan : List Char → Nat → Option Nat
  | [], n => some n
  | ch :: rest, n =>
    if ch.isDigit then
      if (2 ^ 64 - 1) / 10 + 1 ≤ n then some (2 ^ 64 - 1)
      else if 2 ^ 64 - 1 < n * 10 + (ch.toNat - 48) then some (2 ^ 64 - 1)
      else parseUintScan rest (n * 10 + (ch.toNat - 48))
    else none

/-- The digits part of `strconv.Atoi`, after the optional sign: `0` on a
syntax error, the nearest `int` on a range error. -/
def atoiDigits (neg : Bool) (ds : List Char) : Int :=
  if ds.isEmpty then 0
  else
    match parseUintScan ds 0 with
    | none => 0
    | some un =>
      if neg then (if 2 ^ 63 < un then minInt else -(un : Int))
      else (if 2 ^ 63 ≤ un then maxInt else (un : Int))

/-- The value returned by `strconv.Atoi(s)`; every caller drops the error. -/
def Atoi (s : String) : Int :=
  match s.toList with
  | [] => 0
  | '-' :: ds => atoiDigits true ds
  | '+' :: ds => atoiDigits false ds
  | ds => atoiDigits false ds

/-- Go `strconv.Itoa(n)`: the decimal text of an `int`. -/
def Itoa (n : Int) : String :=
  if n < 0 then "-" ++ Nat.repr n.natAbs else Nat.repr n.toNat

/-! ## Requests, responses and the collaborators of the controllers -/

/-- A Go `error` value. -/
structure Err where
  msg : String
  deriving DecidableEq, Repr

/-- Modelled from the spec: the declaration of `models.User` is not part of
the sources; these are the fields the controllers read and write, the stored
`Password` being the hash. -/
structure User where
  Id : Nat
  FirstName : String
  LastName : String
  Email : String
  Password : String
  RoleId : Nat
  deriving DecidableEq, Repr

/-- The zero value of `models.User`. -/
def User.zero : User :=
  { Id := 0, FirstName := "", LastName := "", Email := "", Password := "", RoleId := 0 }

/-- A `fiber.Cookie` with the fields the controllers set; `Expires` is an
instant in nanoseconds since the Unix epoch. -/
structure Cookie where
  Name : String
  Value : String
  Expires : Int
  HTTPOnly : Bool
  deriving DecidableEq, Repr

/-- Go `time.Hour`, in nanoseconds. -/
def Hour : Int := 3600 * 1000000000

/-- A value stored in a flat `fiber.Map`. -/
inductive Field where
  | int (n : Int)
  | str (s : String)
  deriving DecidableEq, Repr

/-- The body of a response. -/
inductive Body (R : Type) where
  | empty
  | text (s : String)
  | map (m : List (String × Field))
  | user (u : User)
  | page (p : PageResult R)
  deriving DecidableEq

/-- The parts of an incoming request the controllers look at. -/
structure Request where
  method : String
  body : String
  cookies : List (String × String)
  query : List (String × String)
  params : List (String × String)
  deriving DecidableEq, Repr

/-- A call a handler makes on one of its collaborators. -/
inductive Call where
  | bindBody
  | setPassword (plain : String)
  | comparePassword (plain : String)
  | generateJWT (subject : String)
  | dbFirst (email : String)
  | dbCreate (u : User)
  | dbFind (u : User)
  | dbUpdates (u : User)
  | dbDelete (u : User)
  | paginate (page : Int)
  deriving DecidableEq, Repr

/-- The `fiber.Ctx` of one request together with the global `database.DB`:
the request, the response under construction, the store, and the log of the
calls the handler has made so far. -/
structure Ctx (S R : Type) where
  req : Request
  status : Nat
  body : Body R
  cookies : List Cookie
  db : S
  calls : List Call
  deriving DecidableEq

/-- The code the controllers call that is not part of the sources: request
binding, the clock, gorm, the password methods of `models.User`, the `util`
token functions and `middlewares.IsAuthorized`. -/
structure Env (S R : Type) where
  /-- Go `c.Bind().Body(&data)` with `data map[string]string`. -/
  bindMap : Request → Except Err (List (String × String))
  /-- Go `c.Bind().Body(&user)` with `user models.User`. -/
  bindUser : Request → User → Except Err User
  /-- Go `time.Now()`, in nanoseconds since the Unix epoch, before which the
  clock does not read. -/
  now : Nat
  /-- Go `database.DB.Where("email = ?", email).First(&user)`. -/
  dbFirstByEmail : S → String → Option User
  /-- Go `database.DB.Create(&user)`. -/
  dbCreate : S → User → User × S
  /-- Go `database.DB.Preload("Role").Find(&user)`. -/
  dbFind : S → User → User
  /-- Go `database.DB.Model(&user).Updates(user)`. -/
  dbUpdates : S → User → User × S
  /-- Go `database.DB.Delete(&user)`. -/
  dbDelete : S → User → S
  /-- The hash `user.SetPassword` stores. -/
  hashPassword : String → String
  /-- Go `user.ComparePassword(plain)`. -/
  comparePassword : User → String → Option Err
  /-- Go `util.GenerateJWT(subject)`. -/
  generateJWT : String → Except Err String
  /-- Go `middlewares.IsAuthorized(c, resource)`. -/
  isAuthorized : String → Ctx S R → Option Err × Ctx S R
  /-- The `Count` and `Take` methods of `models.User`. -/
  userEntity : Entity S R

variable {S R : Type}

/-- Lookup in a Go `map[string]string`: the empty string for a missing key. -/
def getField (data : List (String × String)) (key : String) : String :=
  (data.lookup key).getD ""

/-- Go `c.Query(key, defaultValue)`. -/
def Query (r : Request) (key defaultValue : String) : String :=
  match r.query.lookup key with
  | some v => if v = "" then defaultValue else v
  | none => defaultValue

/-- Go `c.Params(key)`. -/
def Params (r : Request) (key : String) : String :=
  (r.params.lookup key).getD ""

/-- Append a call to the log. -/
def record (call : Call) (c : Ctx S R) : Ctx S R :=
  { c with calls := c.calls ++ [call] }

/-- Go `c.Status(code)`. -/
def Status (code : Nat) (c : Ctx S R) : Ctx S R :=
  { c with status := code }

/-- Go `c.JSON(value)`: the value becomes the body; encoding does not fail. -/
def JSON (value : Body R) (c : Ctx S R) : Option Err × Ctx S R :=
  (none, { c with body := value })

/-- Go `c.SendStatus(code)`: sets the status, and the status text as body when
the body is still empty. -/
def SendStatus (code : Nat) (text : String) (c : Ctx S R) : Option Err × Ctx S R :=
  match c.body with
  | Body.empty => (none, { c with status := code, body := Body.text text })
  | _ => (none, { c with status := code })

/-- The bytes `net/http` takes in a cookie name: the token characters. -/
def isTokenByte (ch : Char) : Bool :=
  ch.isAlphanum ||
    [33, 35, 36, 37, 38, 39, 42, 43, 45, 46, 94, 95, 96, 124, 126].contains ch.toNat

/-- Go `isCookieNameValid(name)`. -/
def isCookieNameValid (name : String) : Bool :=
  !name.toList.isEmpty && name.toList.all isTokenByte

/-- Go `validCookieValueByte(b)`: printable ASCII other than the double
quote, the semicolon and the backslash. -/
def validCookieValueByte (ch : Char) : Bool :=
  decide (32 ≤ ch.toNat) && decide (ch.toNat < 127) &&
    ch.toNat != 34 && ch.toNat != 59 && ch.toNat != 92

/-- The zero `time.Time`, the first instant of the year 1, in nanoseconds
since the Unix epoch. -/
def zeroTime : Int := -62135596800 * 1000000000

/-- The first instant of the year 1601, in nanoseconds since the Unix epoch. -/
def year1601 : Int := -11644473600 * 1000000000

/-- Go `validCookieExpires(t)`: the year of `t`, taken in UTC, is at least
1601. -/
def validCookieExpires (t : Int) : Bool := decide (year1601 ≤ t)

/-- Go `(*http.Cookie).Valid()` on the cookie `c.Cookie` builds, whose path is
`/` and whose domain is empty: the name is a token, the expiry is unset or
not before 1601, and every byte of the value may stand in a cookie value. -/
def Cookie.Valid (k : Cookie) : Bool :=
  isCookieNameValid k.Name &&
    (k.Expires == zeroTime || validCookieExpires k.Expires) &&
    k.Value.toList.all validCookieValueByte

/-- The `setArg` of fasthttp on the response cookies: the first cookie of the
same name is replaced where it stands, and without one the cookie is added
at the end. -/
def setArg : List Cookie → Cookie → List Cookie
  | [], k => [k]
  | x :: rest, k => if x.Name = k.Name then k :: rest else x :: setArg rest k

/-- Go `c.Cookie(&cookie)`: a cookie that `net/http` finds invalid is dropped;
a valid one becomes a `Set-Cookie` header of the response. -/
def SetCookie (cookie : Cookie) (c : Ctx S R) : Ctx S R :=
  if cookie.Valid then { c with cookies := setArg c.cookies cookie } else c

/-! ## controllers/authController.go -/

/-- Go `Register(c)`. -/
def Register (env : Env S R) (c : Ctx S R) : Option Err × Ctx S R :=
  match env.bindMap c.req with
  | Except.error err => (some err, record Call.bindBody c)
  | Except.ok data =>
    let c := record Call.bindBody c
    if getField data "password" ≠ getField data "password_confirm" then
      JSON (Body.map [("code", Field.int 400), ("message", Field.str "Passwords do not match")])
        (Status 400 c)
    else
      let user : User :=
        { User.zero with
          FirstName := getField data "first_name"
          LastName := getField data "last_name"
          Email := getField data "email"
          RoleId := 3 }
      let user := { user with Password := env.hashPassword (getField data "password") }
      let c := record (Call.setPassword (getField data "password")) c
      let created := env.dbCreate c.db user
      let c := record (Call.dbCreate user) { c with db := created.2 }
      JSON (Body.user created.1) c

/-- Go `Login(c)`. -/
def Login (env : Env S R) (c : Ctx S R) : Option Err × Ctx S R :=
  match env.bindMap c.req with
  | Except.error err => (some err, record Call.bindBody c)
  | Except.ok data =>
    let c := record Call.bindBody c
    let user := (env.dbFirstByEmail c.db (getField data "email")).getD User.zero
    let c := record (Call.dbFirst (getField data "email")) c
    if user.Id = 0 then
      JSON (Body.map [("code", Field.int 404), ("message", Field.str "email not found")])
        (Status 404 c)
    else
      let c := record (Call.comparePassword (getField data "password")) c
      match env.comparePassword user (getField data "password") with
      | some _ =>
        JSON (Body.map [("code", Field.int 400), ("message", Field.str "incorrect password")])
          (Status 400 c)
      | none =>
        let subject := Itoa (toInt user.Id)
        let c := record (Call.generateJWT subject) c
        match env.generateJWT subject with
        | Except.error _ => SendStatus 500 "Internal Server Error" c
        | Except.ok token =>
          let cookie : Cookie :=
            { Name := "jwt", Value := token, Expires := (env.now : Int) + Hour * 24,
              HTTPOnly := true }
          JSON (Body.map [("message", Field.str "success login")]) (SetCookie cookie c)

/-- Go `Logout(c)`. -/
def Logout (env : Env S R) (c : Ctx S R) : Option Err × Ctx S R :=
  let cookie : Cookie :=
    { Name := "jwt", Value := "", Expires := (env.now : Int) + -Hour, HTTPOnly := true }
  JSON (Body.map [("message", Field.str "success logout")]) (SetCookie cookie c)

/-! ## controllers/userController.go -/

/-- Go `AllUsers(c)`. -/
def AllUsers (env : Env S R) (c : Ctx S R) : Option Err × Ctx S R :=
  match env.isAuthorized "users" c with
  | (some err, c) => (some err, c)
  | (none, c) =>
    let page := Atoi (Query c.req "page" "1")
    let res := Paginate env.userEntity page c.db
    JSON (Body.page res.1) (record (Call.paginate page) { c with db := res.2 })

/-- Go `CreateUser(c)`. -/
def CreateUser (env : Env S R) (c : Ctx S R) : Option Err × Ctx S R :=
  match env.isAuthorized "users" c with
  | (some err, c) => (some err, c)
  | (none, c) =>
    match env.bindUser c.req User.zero with
    | Except.error err => (some err, record Call.bindBody c)
    | Except.ok user =>
      let c := record Call.bindBody c
      let user := { user with Password := env.hashPassword "3" }
      let c := record (Call.setPassword "3") c
      let created := env.dbCreate c.db user
      let c := record (Call.dbCreate user) { c with db := created.2 }
      JSON (Body.user created.1) c

/-- Go `GetUser(c)`. -/
def GetUser (env : Env S R) (c : Ctx S R) : Option Err × Ctx S R :=
  match env.isAuthorized "users" c with
  | (some err, c) => (some err, c)
  | (none, c) =>
    let id := Atoi (Params c.req "id")
    let user : User := { User.zero with Id := toUint id }
    let found := env.dbFind c.db user
    JSON (Body.user found) (record (Call.dbFind user) c)

/-- Go `UpdateUser(c)`. -/
def UpdateUser (env : Env S R) (c : Ctx S R) : Option Err × Ctx S R :=
  match env.isAuthorized "users" c with
  | (some err, c) => (some err, c)
  | (none, c) =>
    let id := Atoi (Params c.req "id")
    let user : User := { User.zero with Id := toUint id }
    match env.bindUser c.req user with
    | Except.error err => (some err, record Call.bindBody c)
    | Except.ok user =>
      let c := record Call.bindBody c
      let updated := env.dbUpdates c.db user
      let c := record (Call.dbUpdates user) { c with db := updated.2 }
      JSON (Body.user updated.1) c

/-- Go `DeleteUser(c)`. -/
def DeleteUser (env : Env S R) (c : Ctx S R) : Option Err × Ctx S R :=
  match env.isAuthorized "users" c with
  | (some err, c) => (some err, c)
  | (none, c) =>
    let id := Atoi (Params c.req "id")
    let user : User := { User.zero with Id := toUint id }
    (none, record (Call.dbDelete user) { c with db := env.dbDelete c.db user })

/-! ## middlewares/authMiddleware.go -/

/-- Go `c.Cookies(key)`: the value of the request cookie of that name, the
empty string when the request carries none. -/
def Cookies (r : Request) (key : String) : String :=
  (r.cookies.lookup key).getD ""

/-- Go `IsAuthenticated(c)`.  The token validation `util.ParseJWT` and the
rest of the handler chain behind `c.Next()` are not part of the sources and
are parameters. -/
def IsAuthenticated (parseJWT : String → Except Err String)
    (next : Ctx S R → Option Err × Ctx S R) (c : Ctx S R) : Option Err × Ctx S R :=
  let cookie := Cookies c.req "jwt"
  match parseJWT cookie with
  | Except.error _ =>
    JSON (Body.map [("message", Field.str "unauthorized")]) (Status 401 c)
  | Except.ok _ => next c

/-! ## A concrete store and environment -/

/-- Seven records, more than one page. -/
def sevenRecords : List Nat := [10, 20, 30, 40, 50, 60, 70]

/-- A store with one user, whose password is `secret`. -/
def sampleUsers : List User :=
  [{ Id := 1, FirstName := "Ada", LastName := "Byron", Email := "ada@example.com",
     Password := "hash:secret", RoleId := 1 }]

/-- A store whose one user has the id `2^63`, a value of Go's `uint` that is
not a value of `int`. -/
def bigIdUsers : List User :=
  [{ Id := 9223372036854775808, FirstName := "Max", LastName := "Uint",
     Email := "max@example.com", Password := "hash:secret", RoleId := 1 }]

/-- An environment over a store that is a list of user rows, in which the
request body binds to `data`.  The gate admits only the cookie value
`admin`. -/
def sampleEnv (data : List (String × String)) : Env (List User) (List User) where
  bindMap := fun _ => Except.ok data
  bindUser := fun _ u => Except.ok u
  now := 1000 * 3600 * 1000000000
  dbFirstByEmail := fun db email => db.find? (fun u => u.Email == email)
  dbCreate := fun db u => ({ u with Id := db.length + 1 }, db ++ [{ u with Id := db.length + 1 }])
  dbFind := fun db u => (db.find? (fun v => v.Id == u.Id)).getD u
  dbUpdates := fun db u => (u, db.map (fun v => if v.Id = u.Id then u else v))
  dbDelete := fun db u => db.filter (fun v => v.Id != u.Id)
  hashPassword := fun plain => "hash:" ++ plain
  comparePassword := fun u plain =>
    if u.Password = "hash:" ++ plain then none else some { msg := "mismatch" }
  generateJWT := fun subject => Except.ok ("token:" ++ subject)
  isAuthorized := fun _ c =>
    if c.req.cookies.lookup "jwt" = some "admin" then (none, c)
    else (some { msg := "unauthorized" }, Status 401 c)
  userEntity :=
    { Count := fun db => ((db.length : Int), db)
      Take := fun limit offset db => (slice db limit offset, db) }

/-- A fresh context for a request carrying the given cookies, over the
sample store. -/
def sampleCtx (cookies : List (String × String)) : Ctx (List User) (List User) :=
  { req := { method := "POST", body := "", cookies := cookies, query := [], params := [] }
    status := 200
    body := Body.empty
    cookies := []
    db := sampleUsers
    calls := [] }

/-- A token validation that accepts only the token the sample environment
issues for the subject `1`. -/
def sampleParseJWT (token : String) : Except Err String :=
  if token = "token:1" then Except.ok "1" else Except.error { msg := "invalid token" }

/-- A next handler that answers with the text `next`. -/
def sampleNext (c : Ctx (List User) (List User)) : Option Err × Ctx (List User) (List User) :=
  JSON (Body.text "next") c

/-! ## Rounding lemmas -/

theorem roundHalfEven_nearest (z : ℚ) (k : ℤ) :
    |((roundHalfEven z : ℤ) : ℚ) - z| ≤ |(k : ℚ) - z| := by
  have h1 : ((⌊z⌋ : ℤ) : ℚ) ≤ z := Int.floor_le z
  have h2 : z < ((⌊z⌋ : ℤ) : ℚ) + 1 := Int.lt_floor_add_one z
  have key : ∀ r : ℤ, (r = ⌊z⌋ ∧ z - ⌊z⌋ ≤ 1 / 2) ∨ (r = ⌊z⌋ + 1 ∧ 1 / 2 ≤ z - ⌊z⌋) →
      |((r : ℤ) : ℚ) - z| ≤ |(k : ℚ) - z| := by
    intro r hr
    rcases le_or_lt k ⌊z⌋ with hle | hlt
    · have hq : (k : ℚ) ≤ ((⌊z⌋ : ℤ) : ℚ) := by exact_mod_cast hle
      rcases hr with ⟨rfl, hd⟩ | ⟨rfl, hd⟩
      · rw [abs_le]
        constructor
        · have := le_abs_self ((k : ℚ) - z); have := neg_abs_le ((k : ℚ) - z); linarith
        · have := neg_abs_le ((k : ℚ) - z); linarith
      · rw [abs_le]; push_cast
        constructor
        · have := neg_abs_le ((k : ℚ) - z); linarith
        · have := neg_abs_le ((k : ℚ) - z); linarith
    · have hq : ((⌊z⌋ : ℤ) : ℚ) + 1 ≤ (k : ℚ) := by exact_mod_cast hlt
      rcases hr with ⟨rfl, hd⟩ | ⟨rfl, hd⟩
      · rw [abs_le]
        constructor
        · have := le_abs_self ((k : ℚ) - z); linarith
        · have := le_abs_self ((k : ℚ) - z); linarith
      · rw [abs_le]; push_cast
        constructor
        · have := le_abs_self ((k : ℚ) - z); linarith
        · have := le_abs_self ((k : ℚ) - z); linarith
  apply key
  unfold roundHalfEven
  simp only
  split_ifs with a b c
  · left; exact ⟨rfl, le_of_lt a⟩
  · right; exact ⟨rfl, le_of_lt b⟩
  · left; exact ⟨rfl, not_lt.mp b⟩
  · right; exact ⟨rfl, not_lt.mp a⟩

theorem roundFloat64_nearest (x : ℚ) (k j : ℤ) (hj : ulpExp x ≤ j) :
    |roundFloat64 x - x| ≤ |(k : ℚ) * 2 ^ j - x| := by
  unfold roundFloat64
  split_ifs with h0
  · subst h0; simp
  · set e := ulpExp x with he
    have hpos : (0 : ℚ) < 2 ^ e := zpow_pos (by norm_num) e
    have hsplit : (2 : ℚ) ^ j = 2 ^ (j - e) * 2 ^ e := by
      rw [← zpow_add₀ (by norm_num : (2 : ℚ) ≠ 0)]; congr 1; ring
    obtain ⟨d, hd⟩ : ∃ d : ℕ, j - e = d := ⟨(j - e).toNat, by omega⟩
    have hint : (k : ℚ) * 2 ^ j = ((k * 2 ^ d : ℤ) : ℚ) * 2 ^ e := by
      rw [hsplit, hd]; push_cast; rw [zpow_natCast]; ring
    have hn := roundHalfEven_nearest (x / 2 ^ e) (k * 2 ^ d)
    have e1 : ((roundHalfEven (x / 2 ^ e) : ℤ) : ℚ) * 2 ^ e - x
        = (((roundHalfEven (x / 2 ^ e) : ℤ) : ℚ) - x / 2 ^ e) * 2 ^ e := by
      field_simp
    have e2 : (k : ℚ) * 2 ^ j - x = (((k * 2 ^ d : ℤ) : ℚ) - x / 2 ^ e) * 2 ^ e := by
      rw [hint]; field_simp
    rw [e1, e2, abs_mul, abs_mul]
    exact mul_le_mul_of_nonneg_right hn (abs_nonneg _)

theorem ulpExp_le (x : ℚ) (m : ℤ) (hx : 0 < x) (hlt : x < 2 ^ m) (hm : -1021 ≤ m) :
    ulpExp x ≤ m - 53 := by
  unfold ulpExp
  have h : Int.log 2 |x| < m := by
    rw [abs_of_pos hx]
    have := (Int.lt_zpow_iff_log_lt (R := ℚ) (b := 2) (by norm_num) hx).mp (by exact_mod_cast hlt)
    exact this
  have : max (Int.log 2 |x|) (-1022) ≤ m - 1 := max_le (by omega) (by omega)
  omega

theorem roundFloat64_exact (x : ℚ) (k j : ℤ) (hj : ulpExp x ≤ j) (hx : x = (k : ℚ) * 2 ^ j) :
    roundFloat64 x = x := by
  have h := roundFloat64_nearest x k j hj
  rw [← hx, sub_self, abs_zero] at h
  have := abs_nonneg (roundFloat64 x - x)
  have h0 : |roundFloat64 x - x| = 0 := le_antisymm h this
  rw [abs_eq_zero] at h0
  linarith

theorem float64_exact (n : Int) (h0 : 0 ≤ n) (h1 : n < 2 ^ 53) : float64 n = (n : ℚ) := by
  unfold float64
  rcases eq_or_lt_of_le h0 with h | h
  · subst h; simp [roundFloat64]
  · apply roundFloat64_exact _ n 0
    · have hq : (0 : ℚ) < (n : ℚ) := by exact_mod_cast h
      have hq1 : (n : ℚ) < 2 ^ (53 : ℤ) := by
        have : (n : ℚ) < ((2 ^ 53 : ℤ) : ℚ) := by exact_mod_cast h1
        norm_num at this ⊢
        exact this
      have := ulpExp_le (n : ℚ) 53 hq hq1 (by norm_num)
      omega
    · simp

theorem lastPage_eq (n : Int) (h0 : 0 ≤ n) (h1 : n < 2 ^ 53) :
    Ceil (fdiv (float64 n) (float64 5)) = (((n + 4) / 5 : ℤ) : ℚ) := by
  rw [float64_exact n h0 h1, float64_exact 5 (by norm_num) (by norm_num)]
  unfold fdiv Ceil
  have hn : n = 5 * (n / 5) + n % 5 := (Int.ediv_add_emod n 5).symm
  have hr0 : 0 ≤ n % 5 := Int.emod_nonneg n (by norm_num)
  have hr5 : n % 5 < 5 := Int.emod_lt_of_pos n (by norm_num)
  set q := n / 5 with hq
  set r := n % 5 with hr
  have hx : (n : ℚ) / ((5 : ℤ) : ℚ) = (q : ℚ) + (r : ℚ) / 5 := by
    have : (n : ℚ) = 5 * (q : ℚ) + (r : ℚ) := by exact_mod_cast hn
    rw [this]; push_cast; ring
  have hq0 : 0 ≤ q := by omega
  have hq1 : q < 2 ^ 51 := by omega
  rcases eq_or_lt_of_le hr0 with hz | hpos
  · -- the quotient is an integer and is represented exactly
    have hx' : (n : ℚ) / ((5 : ℤ) : ℚ) = (q : ℚ) := by rw [hx, ← hz]; simp
    have hex := float64_exact q hq0 (by omega)
    unfold float64 at hex
    rw [hx', hex, Int.ceil_intCast]
    congr 1
    omega
  · -- the quotient lies strictly between two integers, and so does its rounding
    have hr1 : (1 : ℚ) ≤ (r : ℚ) := by exact_mod_cast hpos
    have hr4 : (r : ℚ) ≤ 4 := by
      have : r ≤ 4 := by omega
      exact_mod_cast this
    have hqq : (0 : ℚ) ≤ (q : ℚ) := by exact_mod_cast hq0
    have hqq1 : (q : ℚ) + 1 ≤ 2 ^ (51 : ℤ) := by
      have : q + 1 ≤ 2 ^ 51 := by omega
      have : ((q + 1 : ℤ) : ℚ) ≤ ((2 ^ 51 : ℤ) : ℚ) := by exact_mod_cast this
      norm_num at this ⊢
      exact this
    set x := (n : ℚ) / ((5 : ℤ) : ℚ) with hxdef
    have hxpos : 0 < x := by rw [hx]; linarith
    have hxlt : x < 2 ^ (51 : ℤ) := by rw [hx]; linarith
    have hu : ulpExp x ≤ -2 := by
      have := ulpExp_le x 51 hxpos hxlt (by norm_num)
      omega
    have hup := roundFloat64_nearest x (q + 1) 0 (by omega)
    have hlo := roundFloat64_nearest x (4 * q + 1) (-2) hu
    have e1 : ((q + 1 : ℤ) : ℚ) * 2 ^ (0 : ℤ) - x = 1 - (r : ℚ) / 5 := by
      rw [hx]; push_cast; ring
    have e2 : ((4 * q + 1 : ℤ) : ℚ) * 2 ^ (-2 : ℤ) - x = 1 / 4 - (r : ℚ) / 5 := by
      rw [hx]; push_cast; norm_num; ring
    rw [e1] at hup
    rw [e2] at hlo
    rw [abs_of_nonneg (show (0 : ℚ) ≤ 1 - (r : ℚ) / 5 by linarith)] at hup
    have hlo' : |roundFloat64 x - x| < (r : ℚ) / 5 := by
      refine lt_of_le_of_lt hlo ?_
      rw [abs_lt]; constructor <;> linarith
    have a1 := abs_le.mp hup
    have a2 := abs_lt.mp hlo'
    have hc : ⌈roundFloat64 x⌉ = q + 1 := by
      rw [Int.ceil_eq_iff]
      push_cast
      constructor
      · linarith [a2.1, hx]
      · linarith [a1.2, hx]
    rw [hc]
    congr 1
    omega

theorem wrapInt_of_range (x : Int) (h0 : minInt ≤ x) (h1 : x ≤ maxInt) : wrapInt x = x := by
  unfold wrapInt
  unfold minInt at h0
  unfold maxInt at h1
  omega

/-! ## Pagination engine -/

/-- C1: for every entity and every page `≥ 1` whose offset `(page-1)*5` fits
an `int`, `Paginate` makes exactly two calls on the entity, `Take` with limit
5 and offset `(page-1)*5` and then `Count`; `"data"` is what that `Take`
returned, `"total"` is what `Count` returned (the count of `db` itself when
`Take` leaves the database as it was), `"page"` is the requested page, and
any entity whose `Take` and `Count` answer those two calls alike gives the
same result. -/
theorem Paginate_contract {S R : Type} (entity : Entity S R) (page : Int) (db : S)
    (hpage : 1 ≤ page) (hrep : (page - 1) * 5 ≤ maxInt) :
    (Paginate (logged entity) page (db, [])).2.2
        = [EntityCall.take 5 ((page - 1) * 5), EntityCall.count] ∧
    (Paginate entity page db).1.data = (entity.Take 5 ((page - 1) * 5) db).1 ∧
    (Paginate entity page db).1.meta.total
        = (entity.Count (entity.Take 5 ((page - 1) * 5) db).2).1 ∧
    ((entity.Take 5 ((page - 1) * 5) db).2 = db →
        (Paginate entity page db).1.meta.total = (entity.Count db).1) ∧
    (Paginate entity page db).1.meta.page = page ∧
    (∀ other : Entity S R,
        other.Take 5 ((page - 1) * 5) db = entity.Take 5 ((page - 1) * 5) db →
        other.Count (entity.Take 5 ((page - 1) * 5) db).2
          = entity.Count (entity.Take 5 ((page - 1) * 5) db).2 →
        Paginate other page db = Paginate entity page db) := by
  have hw : wrapInt ((page - 1) * 5) = (page - 1) * 5 :=
    wrapInt_of_range _ (by unfold minInt; omega) hrep
  refine ⟨?_, ?_, ?_, ?_, ?_, ?_⟩
  · simp [Paginate, logged, hw]
  · simp [Paginate, hw]
  · simp [Paginate, hw]
  · intro h; simp [Paginate, hw, h]
  · simp [Paginate]
  · intro other hT hC
    simp only [Paginate, hw, hT, hC]

/-- Witness for C1: page 2 of seven records. -/
theorem Paginate_contract_witness :
    (Paginate (logged (listEntity sevenRecords)) 2 ((), [])).2.2
        = [EntityCall.take 5 5, EntityCall.count] ∧
    (Paginate (listEntity sevenRecords) 2 ()).1.data = [60, 70] ∧
    (Paginate (listEntity sevenRecords) 2 ()).1.meta.total = 7 ∧
    (Paginate (listEntity sevenRecords) 2 ()).1.meta.page = 2 := by
  have h := Paginate_contract (listEntity sevenRecords) 2 () (by decide) (by decide)
  exact ⟨h.1, h.2.1, h.2.2.1, h.2.2.2.2.1⟩

/-- C2: when the total that `Count` returns to `Paginate` (called on the
database as `Take` left it) is `≥ 0` (and below `2^53`), `"total"` is that
total and `"last_page"` is the integer ceiling of `total / 5`: the least `n`
with `5 * n ≥ total`; it is 0 for total 0, 1 for totals 1 to 5, and 2 for
total 6. -/
theorem Paginate_last_page {S R : Type} (entity : Entity S R) (page : Int) (db : S)
    (total : Int)
    (hcount : (entity.Count (entity.Take 5 (wrapInt ((page - 1) * 5)) db).2).1 = total)
    (h0 : 0 ≤ total) (h53 : total < 2 ^ 53) :
    (Paginate entity page db).1.meta.total = total ∧
    (Paginate entity page db).1.meta.last_page = (((total + 4) / 5 : Int) : ℚ) ∧
    total ≤ 5 * ((total + 4) / 5) ∧
    (∀ m : Int, total ≤ 5 * m → (total + 4) / 5 ≤ m) ∧
    (total = 0 → (Paginate entity page db).1.meta.last_page = 0) ∧
    (1 ≤ total ∧ total ≤ 5 → (Paginate entity page db).1.meta.last_page = 1) ∧
    (total = 6 → (Paginate entity page db).1.meta.last_page = 2) := by
  have htotal : (Paginate entity page db).1.meta.total = total := hcount
  have hlast : (Paginate entity page db).1.meta.last_page = (((total + 4) / 5 : Int) : ℚ) := by
    have h := lastPage_eq total h0 h53
    rw [← hcount] at h ⊢
    exact h
  refine ⟨htotal, hlast, by omega, ?_, ?_, ?_, ?_⟩
  · intro m hm; omega
  · intro h
    rw [hlast, h]; norm_num
  · intro h
    have : (total + 4) / 5 = 1 := by omega
    rw [hlast, this]; norm_num
  · intro h
    rw [hlast, h]; norm_num

/-- Witness for C2: `Count` returns 7 for seven records, which make two
pages. -/
theorem Paginate_last_page_witness :
    (Paginate (listEntity sevenRecords) 1 ()).1.meta.total = 7 ∧
    (Paginate (listEntity sevenRecords) 1 ()).1.meta.last_page = (((7 + 4) / 5 : Int) : ℚ) :=
  ⟨(Paginate_last_page (listEntity sevenRecords) 1 () 7 rfl (by decide) (by decide)).1,
    (Paginate_last_page (listEntity sevenRecords) 1 () 7 rfl (by decide) (by decide)).2.1⟩

/-- C3 fails at page 0: `Take` is called with offset `-5`, not 0, and neither
the data nor the reported page are those of page 1. -/
theorem Paginate_page_zero_not_normalized :
    (Paginate (logged (listEntity sevenRecords)) 0 ((), [])).2.2
        = [EntityCall.take 5 (-5), EntityCall.count] ∧
    (Paginate (listEntity sevenRecords) 0 ()).1.data = [] ∧
    (Paginate (listEntity sevenRecords) 1 ()).1.data = [10, 20, 30, 40, 50] ∧
    (Paginate (listEntity sevenRecords) 0 ()).1.meta.page = 0 ∧
    (Paginate (listEntity sevenRecords) 1 ()).1.meta.page = 1 := by
  decide

/-- C3 as the code has it: for every page `≤ 0` whose offset `(page-1)*5` fits
an `int`, `Paginate` does not normalize the page: it calls `Take` with limit 5
and the negative offset `(page-1)*5`, at most `-5`, returns what that call
returned, and reports the requested page in `"page"`. -/
theorem Paginate_nonpositive_page {S R : Type} (entity : Entity S R) (page : Int) (db : S)
    (hpage : page ≤ 0) (hrep : minInt ≤ (page - 1) * 5) :
    (Paginate (logged entity) page (db, [])).2.2
        = [EntityCall.take 5 ((page - 1) * 5), EntityCall.count] ∧
    (page - 1) * 5 ≤ -5 ∧
    (Paginate entity page db).1.data = (entity.Take 5 ((page - 1) * 5) db).1 ∧
    (Paginate entity page db).1.meta.page = page := by
  have hw : wrapInt ((page - 1) * 5) = (page - 1) * 5 :=
    wrapInt_of_range _ hrep (by unfold maxInt; omega)
  refine ⟨?_, by omega, ?_, ?_⟩
  · simp [Paginate, logged, hw]
  · simp [Paginate, hw]
  · simp [Paginate]

/-- Witness for the amended C3: page `-1`. -/
theorem Paginate_nonpositive_page_witness :
    (Paginate (logged (listEntity sevenRecords)) (-1) ((), [])).2.2
        = [EntityCall.take 5 (-10), EntityCall.count] ∧
    (Paginate (listEntity sevenRecords) (-1) ()).1.meta.page = -1 := by
  have h := Paginate_nonpositive_page (listEntity sevenRecords) (-1) () (by decide) (by decide)
  exact ⟨h.1, h.2.2.2⟩

/-- C4 fails at page 3689348814741910324 of a one-record entity: the offset
`(page-1)*5` wraps to `-1`, the data is the one record although the page is
far beyond the last page `ceil(1/5) = 1`, and the positions
`(page-1)*5 .. min(page*5, total)-1` are none. -/
theorem Paginate_listEntity_wrapped_page :
    wrapInt ((3689348814741910324 - 1) * 5) = -1 ∧
    (Paginate (listEntity [10]) 3689348814741910324 ()).1.data = [10] ∧
    (Paginate (listEntity [10]) 3689348814741910324 ()).1.data ≠ [] ∧
    (Paginate (listEntity [10]) 3689348814741910324 ()).1.meta.total = 1 ∧
    ((1 : Int) + 4) / 5 < 3689348814741910324 ∧
    min ((3689348814741910324 : Int) * 5) 1 - 1 < (3689348814741910324 - 1) * 5 := by
  decide

/-- C4 as the code has it: for an entity that is the sequence `xs` and every
page `≥ 1` whose offset `(page-1)*5` fits an `int`, the data is exactly the
records at positions `(page-1)*5 .. min(page*5, total)-1`; it has at most 5
records, and it is empty for every page greater than `ceil(total/5)`. -/
theorem Paginate_listEntity_page {α : Type} (xs : List α) (page : Int)
    (hpage : 1 ≤ page) (hrep : (page - 1) * 5 ≤ maxInt) :
    (∀ i : Nat, (Paginate (listEntity xs) page ()).1.data[i]? =
        if (page - 1) * 5 + (i : Int) < min (page * 5) (xs.length : Int)
        then xs[((page - 1) * 5).toNat + i]? else none) ∧
    (Paginate (listEntity xs) page ()).1.data.length
        = (min (page * 5) (xs.length : Int) - (page - 1) * 5).toNat ∧
    (Paginate (listEntity xs) page ()).1.data.length ≤ 5 ∧
    (((xs.length : Int) + 4) / 5 < page → (Paginate (listEntity xs) page ()).1.data = []) := by
  have hw : wrapInt ((page - 1) * 5) = (page - 1) * 5 :=
    wrapInt_of_range _ (by unfold minInt; omega) hrep
  obtain ⟨k, hk⟩ : ∃ k : Nat, (page - 1) * 5 = (k : Int) := ⟨((page - 1) * 5).toNat, by omega⟩
  have hdata : (Paginate (listEntity xs) page ()).1.data = (xs.drop k).take 5 := by
    have h5 : ((k : Int) + 5).toNat - k = 5 := by omega
    rw [hk] at hw
    simp only [Paginate, listEntity, slice, hk, hw, h5, Int.toNat_ofNat]
  have hlen : (Paginate (listEntity xs) page ()).1.data.length = min 5 (xs.length - k) := by
    rw [hdata, List.length_take, List.length_drop]
  refine ⟨?_, ?_, ?_, ?_⟩
  · intro i
    rw [hdata, hk]
    simp only [Int.toNat_ofNat]
    by_cases hi : i < 5
    · rw [List.getElem?_take_of_lt hi, List.getElem?_drop]
      split_ifs with hc
      · rfl
      · rw [List.getElem?_eq_none]; omega
    · rw [List.getElem?_take_eq_none (by omega)]
      rw [if_neg (by omega)]
  · rw [hlen]; omega
  · rw [hlen]; omega
  · intro hlast
    apply List.eq_nil_of_length_eq_zero
    rw [hlen]; omega

/-- Witness for the amended C4: page 2 of seven records. -/
theorem Paginate_listEntity_page_witness :
    (Paginate (listEntity sevenRecords) 2 ()).1.data.length ≤ 5 ∧
    (Paginate (listEntity sevenRecords) 2 ()).1.data.length = 2 :=
  ⟨(Paginate_listEntity_page sevenRecords 2 (by decide) (by decide)).2.2.1,
    (Paginate_listEntity_page sevenRecords 2 (by decide) (by decide)).2.1⟩

/-! ## Session handlers -/

theorem Itoa_toInt_of_lt (u : Nat) (h : u < 2 ^ 63) : Itoa (toInt u) = Nat.repr u := by
  have hw : wrapInt (u : Int) = (u : Int) :=
    wrapInt_of_range _ (by unfold minInt; omega) (by unfold maxInt; omega)
  unfold Itoa toInt
  rw [hw, if_neg (by omega), Int.toNat_ofNat]

theorem setArg_find (cs : List Cookie) (k : Cookie) :
    (setArg cs k).find? (fun x => x.Name == k.Name) = some k := by
  induction cs with
  | nil => simp [setArg]
  | cons x rest ih =>
    by_cases h : x.Name = k.Name
    · simp [setArg, h]
    · simp [setArg, h, ih]

theorem setArg_filter_ne (cs : List Cookie) (k : Cookie) :
    (setArg cs k).filter (fun x => x.Name != k.Name)
      = cs.filter (fun x => x.Name != k.Name) := by
  induction cs with
  | nil => simp [setArg]
  | cons x rest ih =>
    by_cases h : x.Name = k.Name
    · simp [setArg, h]
    · simp [setArg, h, ih]

theorem setArg_filter_eq (cs : List Cookie) (k : Cookie)
    (h1 : (cs.filter (fun x => x.Name == k.Name)).length ≤ 1) :
    (setArg cs k).filter (fun x => x.Name == k.Name) = [k] := by
  induction cs with
  | nil => simp [setArg]
  | cons x rest ih =>
    by_cases h : x.Name = k.Name
    · have hrest : rest.filter (fun x => x.Name == k.Name) = [] := by
        apply List.eq_nil_of_length_eq_zero
        simp [List.filter_cons, h] at h1
        simpa using h1
      simp only [setArg, h, if_true, List.filter_cons, beq_self_eq_true, hrest]
    · have h1' : (rest.filter (fun x => x.Name == k.Name)).length ≤ 1 := by
        simpa [List.filter_cons, h] using h1
      simp [setArg, h, ih h1']

theorem valid_jwt_cookie (value : String) (t : Int) (http : Bool)
    (ht : year1601 ≤ t) (hv : value.toList.all validCookieValueByte = true) :
    Cookie.Valid { Name := "jwt", Value := value, Expires := t, HTTPOnly := http } = true := by
  have hname : isCookieNameValid "jwt" = true := by decide
  simp only [Cookie.Valid, hname, validCookieExpires, ht, hv, decide_True, Bool.or_true,
    Bool.and_self]

/-- C5 fails on one request body against two stores: where the email matches
no user the response is 404 "email not found", where it matches a user whose
password comparison fails it is 400 "incorrect password". -/
theorem Login_reveals_wrong_credential :
    (Login (sampleEnv [("email", "ada@example.com"), ("password", "wrong")])
        { sampleCtx [] with db := [] }).2.status = 404 ∧
    (Login (sampleEnv [("email", "ada@example.com"), ("password", "wrong")])
        { sampleCtx [] with db := [] }).2.body
      = Body.map [("code", Field.int 404), ("message", Field.str "email not found")] ∧
    (Login (sampleEnv [("email", "ada@example.com"), ("password", "wrong")])
        (sampleCtx [])).2.status = 400 ∧
    (Login (sampleEnv [("email", "ada@example.com"), ("password", "wrong")])
        (sampleCtx [])).2.body
      = Body.map [("code", Field.int 400), ("message", Field.str "incorrect password")] := by
  decide

/-- C5 as the code has it: for every request body that binds, Login answers
404 with code 404 and message "email not found" when the email matches no
stored user, and 400 with code 400 and message "incorrect password" when it
matches a user whose password comparison fails; the two responses differ. -/
theorem Login_failure_responses {S R : Type} (env : Env S R) (c₁ c₂ : Ctx S R)
    (data : List (String × String)) (u : User) (e : Err)
    (hbind₁ : env.bindMap c₁.req = Except.ok data)
    (hbind₂ : env.bindMap c₂.req = Except.ok data)
    (hnone : env.dbFirstByEmail c₁.db (getField data "email") = none)
    (hfind : env.dbFirstByEmail c₂.db (getField data "email") = some u)
    (hid : u.Id ≠ 0)
    (hcmp : env.comparePassword u (getField data "password") = some e) :
    (Login env c₁).2.status = 404 ∧
    (Login env c₁).2.body
      = Body.map [("code", Field.int 404), ("message", Field.str "email not found")] ∧
    (Login env c₂).2.status = 400 ∧
    (Login env c₂).2.body
      = Body.map [("code", Field.int 400), ("message", Field.str "incorrect password")] ∧
    (Login env c₁).2.status ≠ (Login env c₂).2.status ∧
    (Login env c₁).2.body ≠ (Login env c₂).2.body := by
  have h1 : (Login env c₁).2.status = 404 ∧ (Login env c₁).2.body
      = Body.map [("code", Field.int 404), ("message", Field.str "email not found")] := by
    simp [Login, hbind₁, hnone, User.zero, JSON, Status, record]
  have h2 : (Login env c₂).2.status = 400 ∧ (Login env c₂).2.body
      = Body.map [("code", Field.int 400), ("message", Field.str "incorrect password")] := by
    simp [Login, hbind₂, hfind, hid, hcmp, JSON, Status, record]
  refine ⟨h1.1, h1.2, h2.1, h2.2, ?_, ?_⟩
  · rw [h1.1, h2.1]; decide
  · rw [h1.2, h2.2]; simp

/-- Witness for the amended C5: the same body against the empty store and
against the sample store. -/
theorem Login_failure_responses_witness :
    (Login (sampleEnv [("email", "ada@example.com"), ("password", "wrong")])
        { sampleCtx [] with db := [] }).2.status ≠
    (Login (sampleEnv [("email", "ada@example.com"), ("password", "wrong")])
        (sampleCtx [])).2.status :=
  (Login_failure_responses (sampleEnv [("email", "ada@example.com"), ("password", "wrong")])
    { sampleCtx [] with db := [] } (sampleCtx [])
    [("email", "ada@example.com"), ("password", "wrong")]
    { Id := 1, FirstName := "Ada", LastName := "Byron", Email := "ada@example.com",
      Password := "hash:secret", RoleId := 1 }
    { msg := "mismatch" } rfl rfl (by decide) (by decide) (by decide) (by decide)).2.2.2.2.1

/-- C6: when the body binds, the email matches a stored user with a non-zero
id and `ComparePassword` returns an error, Login answers 400 with code 400
and message "incorrect password", leaves the response cookies and the store
as they were, and its only calls are the bind, the lookup by email and the
password comparison: `GenerateJWT` is not called. -/
theorem Login_wrong_password_denied {S R : Type} (env : Env S R) (c : Ctx S R)
    (data : List (String × String)) (u : User) (e : Err)
    (hbind : env.bindMap c.req = Except.ok data)
    (hfind : env.dbFirstByEmail c.db (getField data "email") = some u)
    (hid : u.Id ≠ 0)
    (hcmp : env.comparePassword u (getField data "password") = some e) :
    (Login env c).1 = none ∧
    (Login env c).2.status = 400 ∧
    (Login env c).2.body
      = Body.map [("code", Field.int 400), ("message", Field.str "incorrect password")] ∧
    (Login env c).2.cookies = c.cookies ∧
    (Login env c).2.db = c.db ∧
    (Login env c).2.calls
      = c.calls ++ [Call.bindBody, Call.dbFirst (getField data "email"),
          Call.comparePassword (getField data "password")] ∧
    (∀ subject, Call.generateJWT subject ∉
      [Call.bindBody, Call.dbFirst (getField data "email"),
        Call.comparePassword (getField data "password")]) := by
  refine ⟨?_, ?_, ?_, ?_, ?_, ?_, ?_⟩ <;>
    simp [Login, hbind, hfind, hid, hcmp, JSON, Status, record]

/-- Witness for C6: the sample user with a wrong password. -/
theorem Login_wrong_password_denied_witness :
    (Login (sampleEnv [("email", "ada@example.com"), ("password", "wrong")])
        (sampleCtx [])).2.status = 400 ∧
    (Login (sampleEnv [("email", "ada@example.com"), ("password", "wrong")])
        (sampleCtx [])).2.cookies = [] :=
  ⟨(Login_wrong_password_denied
      (sampleEnv [("email", "ada@example.com"), ("password", "wrong")]) (sampleCtx [])
      [("email", "ada@example.com"), ("password", "wrong")]
      { Id := 1, FirstName := "Ada", LastName := "Byron", Email := "ada@example.com",
        Password := "hash:secret", RoleId := 1 }
      { msg := "mismatch" } rfl (by decide) (by decide) (by decide)).2.1,
   (Login_wrong_password_denied
      (sampleEnv [("email", "ada@example.com"), ("password", "wrong")]) (sampleCtx [])
      [("email", "ada@example.com"), ("password", "wrong")]
      { Id := 1, FirstName := "Ada", LastName := "Byron", Email := "ada@example.com",
        Password := "hash:secret", RoleId := 1 }
      { msg := "mismatch" } rfl (by decide) (by decide) (by decide)).2.2.2.1⟩

/-- C7 fails for the stored user with id `2^63`: the subject handed to
`GenerateJWT`, and so the one the cookie carries, is `Itoa(int(2^63))`, the
text `-9223372036854775808`, not the decimal text of the id. -/
theorem Login_subject_wraps :
    (Login (sampleEnv [("email", "max@example.com"), ("password", "secret")])
        { sampleCtx [] with db := bigIdUsers }).2.calls
      = [Call.bindBody, Call.dbFirst "max@example.com", Call.comparePassword "secret",
          Call.generateJWT "-9223372036854775808"] ∧
    (Login (sampleEnv [("email", "max@example.com"), ("password", "secret")])
        { sampleCtx [] with db := bigIdUsers }).2.cookies
      = [{ Name := "jwt", Value := "token:-9223372036854775808",
           Expires := 1000 * Hour + Hour * 24, HTTPOnly := true }] ∧
    Itoa (toInt 9223372036854775808) = "-9223372036854775808" ∧
    Nat.repr 9223372036854775808 = "9223372036854775808" := by
  decide

/-- C7 as the code has it: when the body binds, the email matches a stored
user with id `u`, `0 < u < 2^63`, the password comparison succeeds and
`GenerateJWT` returns for the decimal text of `u` a token made of bytes a
cookie value may hold (as every JWT is), Login returns no error, answers with
the message "success login", and sets one cookie on the response: named
"jwt", HTTP-only, expiring 24 hours after the current time, its value that
token, which any validation inverse to `GenerateJWT` decodes to the decimal
text of `u`.  The cookie takes the place of the first earlier response cookie
of that name, or the end of the list; it is the cookie of that name a client
reads, the other cookies stay, and a response that had at most one "jwt"
cookie before has exactly one after. -/
theorem Login_success_cookie {S R : Type} (env : Env S R) (c : Ctx S R)
    (data : List (String × String)) (u : User) (token : String)
    (hbind : env.bindMap c.req = Except.ok data)
    (hfind : env.dbFirstByEmail c.db (getField data "email") = some u)
    (hid : u.Id ≠ 0) (hint : u.Id < 2 ^ 63)
    (hcmp : env.comparePassword u (getField data "password") = none)
    (htoken : env.generateJWT (Nat.repr u.Id) = Except.ok token)
    (hsafe : token.toList.all validCookieValueByte = true) :
    (Login env c).1 = none ∧
    (Login env c).2.body = Body.map [("message", Field.str "success login")] ∧
    (Login env c).2.status = c.status ∧
    (Login env c).2.cookies
      = setArg c.cookies
          { Name := "jwt", Value := token, Expires := (env.now : Int) + 24 * Hour,
            HTTPOnly := true } ∧
    (Login env c).2.cookies.find? (fun k => k.Name == "jwt")
      = some { Name := "jwt", Value := token, Expires := (env.now : Int) + 24 * Hour,
               HTTPOnly := true } ∧
    (Login env c).2.cookies.filter (fun k => k.Name != "jwt")
      = c.cookies.filter (fun k => k.Name != "jwt") ∧
    ((c.cookies.filter (fun k => k.Name == "jwt")).length ≤ 1 →
      (Login env c).2.cookies.filter (fun k => k.Name == "jwt")
        = [{ Name := "jwt", Value := token, Expires := (env.now : Int) + 24 * Hour,
             HTTPOnly := true }]) ∧
    (c.cookies = [] →
      (Login env c).2.cookies
        = [{ Name := "jwt", Value := token, Expires := (env.now : Int) + 24 * Hour,
             HTTPOnly := true }]) ∧
    (Login env c).2.calls
      = c.calls ++ [Call.bindBody, Call.dbFirst (getField data "email"),
          Call.comparePassword (getField data "password"),
          Call.generateJWT (Nat.repr u.Id)] ∧
    (∀ validate : String → Option String,
      (∀ x t, env.generateJWT x = Except.ok t → validate t = some x) →
      validate token = some (Nat.repr u.Id)) := by
  have hsub := Itoa_toInt_of_lt u.Id hint
  have hexp : (env.now : Int) + Hour * 24 = (env.now : Int) + 24 * Hour := by ring
  have hvalid := valid_jwt_cookie token ((env.now : Int) + 24 * Hour) true
    (by unfold year1601 Hour; omega) hsafe
  have hrun : Login env c =
      (none,
        { c with
          body := Body.map [("message", Field.str "success login")]
          cookies := setArg c.cookies
            { Name := "jwt", Value := token, Expires := (env.now : Int) + 24 * Hour,
              HTTPOnly := true }
          calls := c.calls ++ [Call.bindBody, Call.dbFirst (getField data "email"),
            Call.comparePassword (getField data "password"),
            Call.generateJWT (Nat.repr u.Id)] }) := by
    simp [Login, hbind, hfind, hid, hcmp, hsub, htoken, JSON, record, SetCookie, hexp, hvalid]
  rw [hrun]
  refine ⟨rfl, rfl, rfl, rfl, ?_, ?_, ?_, ?_, rfl, ?_⟩
  · exact setArg_find c.cookies ⟨"jwt", token, (env.now : Int) + 24 * Hour, true⟩
  · exact setArg_filter_ne c.cookies ⟨"jwt", token, (env.now : Int) + 24 * Hour, true⟩
  · intro h1
    exact setArg_filter_eq c.cookies ⟨"jwt", token, (env.now : Int) + 24 * Hour, true⟩ h1
  · intro h0
    simp [h0, setArg]
  · intro validate hv
    exact hv _ _ htoken

/-- Witness for the amended C7: the sample user with the right password. -/
theorem Login_success_cookie_witness :
    (Login (sampleEnv [("email", "ada@example.com"), ("password", "secret")])
        (sampleCtx [])).2.cookies
      = [{ Name := "jwt", Value := "token:1",
           Expires := ((1000 * 3600 * 1000000000 : Nat) : Int) + 24 * Hour, HTTPOnly := true }] :=
  (Login_success_cookie
    (sampleEnv [("email", "ada@example.com"), ("password", "secret")]) (sampleCtx [])
    [("email", "ada@example.com"), ("password", "secret")]
    { Id := 1, FirstName := "Ada", LastName := "Byron", Email := "ada@example.com",
      Password := "hash:secret", RoleId := 1 }
    "token:1" rfl (by decide) (by decide) (by decide) (by decide) rfl
    (by decide)).2.2.2.2.2.2.2.1 rfl

/-- A token with a semicolon, a byte no cookie value may hold: the cookie is
dropped and the response carries none, although Login answers "success
login". -/
theorem Login_unsafe_token_sets_no_cookie :
    (Login { sampleEnv [("email", "ada@example.com"), ("password", "secret")] with
              generateJWT := fun _ => Except.ok "tok;en" } (sampleCtx [])).2.cookies = [] ∧
    (Login { sampleEnv [("email", "ada@example.com"), ("password", "secret")] with
              generateJWT := fun _ => Except.ok "tok;en" } (sampleCtx [])).2.body
      = Body.map [("message", Field.str "success login")] := by
  decide

/-- C8: for every request, Logout sets on the response the cookie named "jwt"
with an empty value, HTTP-only, and expiring one hour before the current
time, which is strictly earlier than the current time; it makes no call on
the store and leaves it as it was.  The cookie takes the place of the first
earlier response cookie of that name, or the end of the list; it is the
cookie of that name a client reads, the other cookies stay, and a response
that had at most one "jwt" cookie before has exactly one after. -/
theorem Logout_clears_cookie {S R : Type} (env : Env S R) (c : Ctx S R) :
    (Logout env c).1 = none ∧
    (Logout env c).2.cookies
      = setArg c.cookies
          { Name := "jwt", Value := "", Expires := (env.now : Int) - Hour, HTTPOnly := true } ∧
    (Logout env c).2.cookies.find? (fun k => k.Name == "jwt")
      = some { Name := "jwt", Value := "", Expires := (env.now : Int) - Hour,
               HTTPOnly := true } ∧
    (Logout env c).2.cookies.filter (fun k => k.Name != "jwt")
      = c.cookies.filter (fun k => k.Name != "jwt") ∧
    ((c.cookies.filter (fun k => k.Name == "jwt")).length ≤ 1 →
      (Logout env c).2.cookies.filter (fun k => k.Name == "jwt")
        = [{ Name := "jwt", Value := "", Expires := (env.now : Int) - Hour,
             HTTPOnly := true }]) ∧
    (c.cookies = [] →
      (Logout env c).2.cookies
        = [{ Name := "jwt", Value := "", Expires := (env.now : Int) - Hour,
             HTTPOnly := true }]) ∧
    (env.now : Int) - Hour < (env.now : Int) ∧
    (Logout env c).2.db = c.db ∧
    (Logout env c).2.calls = c.calls ∧
    (Logout env c).2.status = c.status ∧
    (Logout env c).2.body = Body.map [("message", Field.str "success logout")] := by
  have hexp : (env.now : Int) + -Hour = (env.now : Int) - Hour := by ring
  have hvalid := valid_jwt_cookie "" ((env.now : Int) - Hour) true
    (by unfold year1601 Hour; omega) (by decide)
  have hrun : Logout env c =
      (none,
        { c with
          body := Body.map [("message", Field.str "success logout")]
          cookies := setArg c.cookies
            { Name := "jwt", Value := "", Expires := (env.now : Int) - Hour,
              HTTPOnly := true } }) := by
    simp [Logout, JSON, SetCookie, hexp, hvalid]
  rw [hrun]
  refine ⟨rfl, rfl, ?_, ?_, ?_, ?_, ?_, rfl, rfl, rfl, rfl⟩
  · exact setArg_find c.cookies ⟨"jwt", "", (env.now : Int) - Hour, true⟩
  · exact setArg_filter_ne c.cookies ⟨"jwt", "", (env.now : Int) - Hour, true⟩
  · intro h1
    exact setArg_filter_eq c.cookies ⟨"jwt", "", (env.now : Int) - Hour, true⟩ h1
  · intro h0
    simp [h0, setArg]
  · unfold Hour; omega

/-- Witness for C8: on a fresh response the cleared "jwt" cookie is the only
cookie. -/
theorem Logout_clears_cookie_witness :
    (Logout (sampleEnv []) (sampleCtx [("jwt", "token:1")])).2.cookies
      = [{ Name := "jwt", Value := "",
           Expires := ((1000 * 3600 * 1000000000 : Nat) : Int) - Hour, HTTPOnly := true }] :=
  (Logout_clears_cookie (sampleEnv []) (sampleCtx [("jwt", "token:1")])).2.2.2.2.2.1 rfl

/-- C9: when the body binds and its "password" and "password_confirm" fields
differ (a missing field reading as the empty string), Register answers 400
with code 400 and message "Passwords do not match"; its only call is the
bind, so no password is hashed and `Create` is not called, and the store is
left as it was. -/
theorem Register_password_mismatch {S R : Type} (env : Env S R) (c : Ctx S R)
    (data : List (String × String))
    (hbind : env.bindMap c.req = Except.ok data)
    (hdiff : getField data "password" ≠ getField data "password_confirm") :
    (Register env c).1 = none ∧
    (Register env c).2.status = 400 ∧
    (Register env c).2.body
      = Body.map [("code", Field.int 400), ("message", Field.str "Passwords do not match")] ∧
    (Register env c).2.db = c.db ∧
    (Register env c).2.calls = c.calls ++ [Call.bindBody] ∧
    (Register env c).2.cookies = c.cookies := by
  refine ⟨?_, ?_, ?_, ?_, ?_, ?_⟩ <;>
    simp [Register, hbind, hdiff, JSON, Status, record]

/-- Witness for C9: the passwords `abc` and `xyz`, and a body without a
confirmation. -/
theorem Register_password_mismatch_witness :
    (Register (sampleEnv [("password", "abc"), ("password_confirm", "xyz")])
        (sampleCtx [])).2.db = sampleUsers ∧
    (Register (sampleEnv [("password", "abc")]) (sampleCtx [])).2.status = 400 :=
  ⟨(Register_password_mismatch (sampleEnv [("password", "abc"), ("password_confirm", "xyz")])
      (sampleCtx []) [("password", "abc"), ("password_confirm", "xyz")]
      rfl (by decide)).2.2.2.1,
   (Register_password_mismatch (sampleEnv [("password", "abc")])
      (sampleCtx []) [("password", "abc")] rfl (by decide)).2.1⟩

/-! ## Users administration handlers -/

/-- C10: each of AllUsers, CreateUser, GetUser, UpdateUser and DeleteUser
first calls the gate with the resource "users": whenever that call returns a
denial, the handler returns exactly that denial and the context as the gate
left it, so it pages, creates, finds, updates, deletes and binds nothing,
whatever the request and its session cookie; and in every case the calls a
handler makes come after those the gate left in the log. -/
theorem users_handlers_gate_first {S R : Type} (env : Env S R) (c : Ctx S R) :
    (∀ (e : Err) (denied : Ctx S R), env.isAuthorized "users" c = (some e, denied) →
      AllUsers env c = (some e, denied) ∧
      CreateUser env c = (some e, denied) ∧
      GetUser env c = (some e, denied) ∧
      UpdateUser env c = (some e, denied) ∧
      DeleteUser env c = (some e, denied)) ∧
    (∀ h ∈ [AllUsers env, CreateUser env, GetUser env, UpdateUser env, DeleteUser env],
      ∃ made : List Call, (h c).2.calls = (env.isAuthorized "users" c).2.calls ++ made) := by
  constructor
  · intro e denied hg
    refine ⟨?_, ?_, ?_, ?_, ?_⟩
    · simp only [AllUsers, hg]
    · simp only [CreateUser, hg]
    · simp only [GetUser, hg]
    · simp only [UpdateUser, hg]
    · simp only [DeleteUser, hg]
  · intro h hmem
    simp only [List.mem_cons, List.mem_singleton, List.not_mem_nil, or_false] at hmem
    rcases hg : env.isAuthorized "users" c with ⟨_ | e, c'⟩
    · rcases hmem with rfl | rfl | rfl | rfl | rfl
      · exact ⟨[Call.paginate (Atoi (Query c'.req "page" "1"))],
          by simp [AllUsers, hg, JSON, record]⟩
      · rcases hb : env.bindUser c'.req User.zero with err | user
        · exact ⟨[Call.bindBody], by simp [CreateUser, hg, hb, record]⟩
        · exact ⟨[Call.bindBody, Call.setPassword "3",
            Call.dbCreate { user with Password := env.hashPassword "3" }],
            by simp [CreateUser, hg, hb, JSON, record]⟩
      · exact ⟨[Call.dbFind { User.zero with Id := toUint (Atoi (Params c'.req "id")) }],
          by simp [GetUser, hg, JSON, record]⟩
      · rcases hb : env.bindUser c'.req
            { User.zero with Id := toUint (Atoi (Params c'.req "id")) } with err | user
        · exact ⟨[Call.bindBody], by simp [UpdateUser, hg, hb, record]⟩
        · exact ⟨[Call.bindBody, Call.dbUpdates user],
            by simp [UpdateUser, hg, hb, JSON, record]⟩
      · exact ⟨[Call.dbDelete { User.zero with Id := toUint (Atoi (Params c'.req "id")) }],
          by simp [DeleteUser, hg, record]⟩
    · rcases hmem with rfl | rfl | rfl | rfl | rfl
      · exact ⟨[], by simp [AllUsers, hg]⟩
      · exact ⟨[], by simp [CreateUser, hg]⟩
      · exact ⟨[], by simp [GetUser, hg]⟩
      · exact ⟨[], by simp [UpdateUser, hg]⟩
      · exact ⟨[], by simp [DeleteUser, hg]⟩

/-- Witness for C10: a request without a session cookie is denied by the
sample gate, and each handler returns that denial. -/
theorem users_handlers_gate_first_witness :
    AllUsers (sampleEnv []) (sampleCtx []) =
        (some { msg := "unauthorized" }, Status 401 (sampleCtx [])) ∧
    CreateUser (sampleEnv []) (sampleCtx []) =
        (some { msg := "unauthorized" }, Status 401 (sampleCtx [])) ∧
    GetUser (sampleEnv []) (sampleCtx []) =
        (some { msg := "unauthorized" }, Status 401 (sampleCtx [])) ∧
    UpdateUser (sampleEnv []) (sampleCtx []) =
        (some { msg := "unauthorized" }, Status 401 (sampleCtx [])) ∧
    DeleteUser (sampleEnv []) (sampleCtx []) =
        (some { msg := "unauthorized" }, Status 401 (sampleCtx [])) :=
  (users_handlers_gate_first (sampleEnv []) (sampleCtx [])).1
    { msg := "unauthorized" } (Status 401 (sampleCtx [])) rfl

/-! ## Authentication middleware -/

/-- C11: for every request, when `ParseJWT` applied to the value of the "jwt"
cookie (the empty string when the cookie is absent) returns an error,
IsAuthenticated answers with status 401 and the JSON body whose message is
"unauthorized", changes nothing else, and does not invoke the next handler:
the result is the same whatever the next handler is; when `ParseJWT`
succeeds, the result is that of the next handler run on the context as it
was, IsAuthenticated having set neither status nor body. -/
theorem IsAuthenticated_denies_iff_token_invalid {S R : Type}
    (parseJWT : String → Except Err String) (next : Ctx S R → Option Err × Ctx S R)
    (c : Ctx S R) :
    (c.req.cookies.lookup "jwt" = none → Cookies c.req "jwt" = "") ∧
    (∀ e : Err, parseJWT (Cookies c.req "jwt") = Except.error e →
      IsAuthenticated parseJWT next c
        = (none, { c with status := 401
                          body := Body.map [("message", Field.str "unauthorized")] }) ∧
      (∀ other : Ctx S R → Option Err × Ctx S R,
        IsAuthenticated parseJWT other c = IsAuthenticated parseJWT next c)) ∧
    (∀ subject : String, parseJWT (Cookies c.req "jwt") = Except.ok subject →
      IsAuthenticated parseJWT next c = next c) := by
  refine ⟨?_, ?_, ?_⟩
  · intro h
    simp [Cookies, h]
  · intro e he
    constructor
    · simp only [IsAuthenticated, he, JSON, Status]
    · intro other
      simp only [IsAuthenticated, he]
  · intro subject hs
    simp only [IsAuthenticated, hs]

/-- Witness for C11: a request without a cookie is answered with 401, and a
request carrying the token of user 1 reaches the next handler. -/
theorem IsAuthenticated_denies_iff_token_invalid_witness :
    IsAuthenticated sampleParseJWT sampleNext (sampleCtx [])
      = (none, { sampleCtx [] with
                  status := 401
                  body := Body.map [("message", Field.str "unauthorized")] }) ∧
    IsAuthenticated sampleParseJWT sampleNext (sampleCtx [("jwt", "token:1")])
      = sampleNext (sampleCtx [("jwt", "token:1")]) :=
  ⟨((IsAuthenticated_denies_iff_token_invalid sampleParseJWT sampleNext (sampleCtx [])).2.1
      { msg := "invalid token" } rfl).1,
   (IsAuthenticated_denies_iff_token_invalid sampleParseJWT sampleNext
      (sampleCtx [("jwt", "token:1")])).2.2 "1" rfl⟩

end Ambassador
